import Mathlib

/-!
# The plate driver (`examples/plate/plate.c`)

A shallow embedding of `main` of the plate example: command-line scan, the
component set-up loop, and the gradient check that calls the time integrator
(`getAdjointGradient`, `getApproxGradient`, `forward`, `reverse`) and prints the
comparison report.

The integrator, the mesh loader and the elements are library code that the
driver only calls; they enter the model as parameters:

* the mesh is the list of its element descriptors, component by component;
* the integrator is a record of arbitrary state-passing functions;
* `double` is an arbitrary type `R` with `+`, `-`, `/` and decimal literals
  (so every theorem holds for any arithmetic, rounding or exact), and
  `TacsScalar` is `R` in the real build and `Cplx R` in the complex build.

A heap array is a list of cells; a cell is `none` until something is stored in
it (`new T[n]` leaves the contents indeterminate, `memset` stores zeros).
-/

namespace Plate

/-! ## Scalars -/

/-- The scalar `std::complex<double>` of the complex build, over the reals `R`. -/
structure Cplx (R : Type) where
  re : R
  im : R
deriving DecidableEq

instance {R : Type} [Add R] : Add (Cplx R) where
  add a b := ⟨a.re + b.re, a.im + b.im⟩

/-- What `#ifdef TACS_USE_COMPLEX` selects: the scalar type `T` over the reals
`R`, the conversions the driver applies to it, and the two halves of the
perturbation block (lines 190-203). -/
structure Build (R T : Type) where
  /-- The value `memset(..., 0, ...)` leaves in each cell. -/
  zero : T
  /-- The conversion `double -> TacsScalar` of `x[0] = 0.03`. -/
  ofReal : R → T
  /-- The helper `RealPart`. -/
  RealPart : T → R
  /-- The step `dh`. -/
  dh : R
  /-- The new value of `x[0]`, from `dh` and the old value. -/
  perturb : R → T → T
  /-- The estimate `fd`, from `dh`, `fval` (line 185) and the value of the
  perturbed run. -/
  estimate : R → T → T → R

/-- The build without `TACS_USE_COMPLEX`: `TacsScalar` is `double`; lines 197-202. -/
def realBuild (R : Type) [Add R] [Sub R] [Div R] [OfScientific R] : Build R R where
  zero := 0.0
  ofReal := fun v => v
  RealPart := fun v => v
  dh := 1e-6
  perturb := fun dh x0 => x0 + dh
  estimate := fun dh fval fval2 => (fval2 - fval) / dh

/-- The build with `TACS_USE_COMPLEX`: `TacsScalar` is complex; lines 191-195. -/
def complexBuild (R : Type) [Add R] [Sub R] [Div R] [OfScientific R] :
    Build R (Cplx R) where
  zero := ⟨0.0, 0.0⟩
  ofReal := fun v => ⟨v, 0.0⟩
  RealPart := fun z => z.re
  dh := 1e-30
  perturb := fun dh x0 => x0 + (⟨0.0, dh⟩ : Cplx R)
  estimate := fun dh _ cs_fval => cs_fval.im / dh

/-! ## Memory -/

/-- A heap array: one cell per element, `none` while nothing was stored in it. -/
abbrev Mem (T : Type) := List (Option T)

/-- The array `new T[n]`: `n` cells, none of them assigned. -/
def Mem.alloc (T : Type) (n : Nat) : Mem T := List.replicate n none

/-- The effect of `memset(p, 0, n*sizeof(T))` on a fresh array of `n` cells. -/
def Mem.zeroed {T : Type} (zero : T) (n : Nat) : Mem T := List.replicate n (some zero)

/-- The value read by `p[i]`: `none` when the cell is unassigned (or outside the array). -/
def Mem.read {T : Type} (m : Mem T) (i : Nat) : Option T := (m.get? i).join

/-- The subtraction `a - b` of two values that were read from memory. -/
def optSub {R : Type} [Sub R] (a b : Option R) : Option R :=
  match a, b with
  | some u, some v => some (u - v)
  | _, _ => none

/-! ## Command line (lines 20-28) -/

/-- The two flags of the command-line scan. -/
structure Flags where
  use_bdf : Nat
  test_element : Nat
deriving DecidableEq

/-- One iteration of the scan: `strcmp` against "BDF", else against "test_element". -/
def scanArg (f : Flags) (arg : String) : Flags :=
  if arg = "BDF" then ⟨1, f.test_element⟩
  else if arg = "test_element" then ⟨f.use_bdf, 1⟩
  else f

/-- The loop `for (i = 0; i < argc; i++)` over `argv`, from `use_bdf = 0, test_element = 0`. -/
def scanArgs (argv : List String) : Flags := argv.foldl scanArg ⟨0, 0⟩

/-! ## Set-up loop (lines 63-88) -/

/-- The ways the driver can stop before `return 0`. -/
inductive Fault where
  /-- A member call through a null `TACSElement*` (line 86). -/
  | nullDereference
  /-- A store past the end of a heap array (line 154 with `num_dvs = 0`). -/
  | outOfBoundsWrite
deriving DecidableEq

/-- The element objects the driver creates: an `MITC9` whose stiffness object
carries design-variable number `dvNum`. -/
inductive TACSElement where
  | MITC9 (dvNum : Nat)
deriving DecidableEq

/-- A line the driver writes to standard output. -/
inductive Line (R : Type) where
  /-- The line "TACS Warning: Unsupported element %s in BDF file". -/
  | warning (descriptor : String)
  /-- The line "Compliance = %15.9e". -/
  | compliance (value : Option R)
  /-- The heading "dfdx[   ]: Analytic FD/CS Error". -/
  | heading
  /-- The line "dfdx[%3d]: %15.8e %15.8e %15.8e". -/
  | gradient (index : Nat) (analytic approx error : Option R)
deriving DecidableEq

/-- State of the set-up loop. -/
structure Setup (R : Type) where
  /-- Lines printed so far. -/
  output : List (Line R)
  /-- The calls `mesh->setElement(i, element)` made so far. -/
  elements : List (Nat × TACSElement)
  vars_per_node : Nat
  /-- Set when the loop stopped on a fault. -/
  fault : Option Fault

/-- The loop over the components, started at component `i` with the remaining
descriptors. `numDisplacements` is what `MITC9::numDisplacements()` returns.
For a descriptor other than "CQUAD" the warning is printed, `element` stays
`NULL`, and line 86 calls `element->numDisplacements()` through it. -/
def setupLoop {R : Type} (numDisplacements : Nat) :
    List String → Nat → Setup R → Setup R
  | [], _, s => s
  | descriptor :: rest, i, s =>
    if descriptor = "CQUAD" then
      setupLoop numDisplacements rest (i + 1)
        ⟨s.output, s.elements ++ [(i, TACSElement.MITC9 i)], numDisplacements, none⟩
    else
      ⟨s.output ++ [Line.warning descriptor], s.elements, s.vars_per_node,
        some Fault.nullDereference⟩

/-- The set-up loop from its initial state: nothing printed, no element set,
`vars_per_node = 8`. -/
def setup {R : Type} (numDisplacements : Nat) (mesh : List String) : Setup R :=
  setupLoop numDisplacements mesh 0 ⟨[], [], 8, none⟩

/-! ## The library the driver calls -/

/-- The function classes whose headers the driver includes. -/
inductive TACSFunction where
  | Compliance
  | KSFailure
deriving DecidableEq

/-- The integrator classes named in the driver. -/
inductive IntegratorKind where
  | BDF
  | DIRK
deriving DecidableEq

/-- The library behind the driver's calls, as arbitrary functions. `σ` is the
state of the integrator object (trajectory, adjoint data, settings); every
member call takes the state and returns the new one. Array arguments the
callee writes (`funcVals`, `dfdx`) are passed in and returned; the design
vector `x` is read by the callee. -/
structure Library (σ R T : Type) where
  /-- The value of `MITC9::numDisplacements()`. -/
  numDisplacements : Nat
  /-- The value of `elem->numVariables()`. -/
  numVariables : Nat
  /-- The constructor `TacsBDFIntegrator(tacs, tinit, tfinal, num_steps_per_sec, max_bdf_order)`. -/
  newTacsBDFIntegrator : R → R → Nat → Nat → σ
  /-- The call `setJacAssemblyFreq(freq)`. -/
  setJacAssemblyFreq : σ → Nat → σ
  /-- The call `getAdjointGradient(func, num_funcs, x, num_dvs, funcVals, dfdx)`:
  new state, `funcVals`, `dfdx`. -/
  getAdjointGradient :
    σ → List TACSFunction → Nat → Mem T → Nat → Mem T → Mem T → σ × Mem T × Mem T
  /-- The call `getApproxGradient(func, num_funcs, x, num_dvs, funcVals, dfdx, dh)`:
  new state, `funcVals`, `dfdx`. -/
  getApproxGradient :
    σ → List TACSFunction → Nat → Mem T → Nat → Mem T → Mem T → R → σ × Mem T × Mem T
  /-- The call `forward(x, num_dvs, func)`: new state and the returned value. -/
  forward : σ → Mem T → Nat → TACSFunction → σ × T
  /-- The call `reverse(dfdx, num_dvs, func)`: new state and `dfdx`. -/
  reverse : σ → Mem T → Nat → TACSFunction → σ × Mem T

/-- A member call on the integrator, with the arguments as they are when the
call is made. -/
inductive Call (R T : Type) where
  | setJacAssemblyFreq (freq : Nat)
  | getAdjointGradient (func : List TACSFunction) (num_funcs : Nat) (x : Mem T)
      (num_dvs : Nat) (funcVals dfdx : Mem T)
  | getApproxGradient (func : List TACSFunction) (num_funcs : Nat) (x : Mem T)
      (num_dvs : Nat) (funcVals dfdx : Mem T) (dh : R)
  | forward (x : Mem T) (num_dvs : Nat) (func : TACSFunction)
  | reverse (dfdx : Mem T) (num_dvs : Nat) (func : TACSFunction)
deriving DecidableEq

/-- A completed member call: the integrator state it was made on, the call, and
the state it returned. -/
structure Event (σ R T : Type) where
  before : σ
  call : Call R T
  after : σ
deriving DecidableEq

/-- A call of the element test block (lines 94-108). -/
inductive TestCall where
  | testResidual
  | testJacobian (k : Nat)
deriving DecidableEq

/-- The element test block: nothing unless `test_element` is set. -/
def elementTests (flags : Flags) (numVariables : Nat) : List TestCall :=
  if flags.test_element ≠ 0 then
    TestCall.testResidual :: (List.range numVariables).map TestCall.testJacobian
  else []

/-! ## Time integration and adjoint solve (lines 135-209) -/

/-- The constant `NUM_FUNCS`. -/
def NUM_FUNCS : Nat := 1

/-- What a run that reaches `return 0` did. -/
structure Run (σ R T : Type) where
  flags : Flags
  /-- The calls `mesh->setElement(i, element)`. -/
  elements : List (Nat × TACSElement)
  vars_per_node : Nat
  tests : List TestCall
  num_dvs : Nat
  /-- The class of the integrator object that was constructed. -/
  integratorKind : IntegratorKind
  /-- The member calls on the integrator, in order. -/
  calls : List (Event σ R T)
  /-- Standard output, in order. -/
  output : List (Line R)
  /-- The array `x` when it is deleted. -/
  x : Mem T
  /-- The array `dfdx` when it is deleted. -/
  dfdx : Mem T
  /-- The array `dfdxTmp` when it is deleted. -/
  dfdxTmp : Mem T
  /-- The array `funcVals` when it is deleted. -/
  funcVals : Mem T
  /-- The local `fval` of line 185. -/
  fval : T
  /-- The local `fd`. -/
  fd : R

/-- How the driver ends. -/
inductive Outcome (σ R T : Type) where
  /-- Stopped on a fault, after printing `output`. -/
  | crashed (fault : Fault) (output : List (Line R))
  /-- Reached `return 0`. -/
  | finished (run : Run σ R T)

/-- The design vector after lines 153-154: `num_dvs` fresh cells, then
`x[0] = 0.03`. -/
def designVector {R T : Type} [OfScientific R] (B : Build R T) (num_dvs : Nat) : Mem T :=
  (Mem.alloc T num_dvs).set 0 (some (B.ofReal 0.03))

/-- The statement `x[0] = x[0] + ...` of the perturbation block (lines 192, 199). -/
def perturbX {R T : Type} (B : Build R T) (x : Mem T) : Mem T :=
  x.set 0 ((Mem.read x 0).map (B.perturb B.dh))

/-- The report line `dfdx[%3d]` for index 0 (lines 179-182 and 206-209):
`RealPart` of the two values and the difference of the two real parts. -/
def reportLine {R : Type} [Sub R] (analytic approx : Option R) : Line R :=
  Line.gradient 0 analytic approx (optSub analytic approx)

/-- The integrator object after lines 164-167. -/
def integrator0 {σ R T : Type} [OfScientific R] (L : Library σ R T) : σ :=
  L.setJacAssemblyFreq (L.newTacsBDFIntegrator 0.0 0.001 1000 2) 1

/-- The call of line 169: `dfdx` is passed as the `memset` left it. -/
def adjointResult {σ R T : Type} [OfScientific R] (B : Build R T) (L : Library σ R T)
    (num_dvs : Nat) : σ × Mem T × Mem T :=
  L.getAdjointGradient (integrator0 L) [TACSFunction.Compliance] NUM_FUNCS
    (designVector B num_dvs) num_dvs (Mem.alloc T NUM_FUNCS)
    (Mem.zeroed B.zero (NUM_FUNCS * num_dvs))

/-- The call of line 174. -/
def approxResult {σ R T : Type} [OfScientific R] (B : Build R T) (L : Library σ R T)
    (num_dvs : Nat) : σ × Mem T × Mem T :=
  L.getApproxGradient (adjointResult B L num_dvs).1 [TACSFunction.Compliance] NUM_FUNCS
    (designVector B num_dvs) num_dvs (adjointResult B L num_dvs).2.1
    (Mem.zeroed B.zero (NUM_FUNCS * num_dvs)) 1e-30

/-- The call of line 185. -/
def forwardResult {σ R T : Type} [OfScientific R] (B : Build R T) (L : Library σ R T)
    (num_dvs : Nat) : σ × T :=
  L.forward (approxResult B L num_dvs).1 (designVector B num_dvs) num_dvs
    TACSFunction.Compliance

/-- The call of line 186: `dfdx` is passed as line 169 left it. -/
def reverseResult {σ R T : Type} [OfScientific R] (B : Build R T) (L : Library σ R T)
    (num_dvs : Nat) : σ × Mem T :=
  L.reverse (forwardResult B L num_dvs).1 (adjointResult B L num_dvs).2.2 num_dvs
    TACSFunction.Compliance

/-- The call of line 193 (complex build) or 200 (real build), after `x[0]` was
changed. -/
def perturbedResult {σ R T : Type} [OfScientific R] (B : Build R T) (L : Library σ R T)
    (num_dvs : Nat) : σ × T :=
  L.forward (reverseResult B L num_dvs).1 (perturbX B (designVector B num_dvs)) num_dvs
    TACSFunction.Compliance

/-- Lines 135-209 when the store of line 154 is inside the array, from the
state the set-up loop left. -/
def gradientRun {σ R T : Type} [Sub R] [OfScientific R] (B : Build R T)
    (L : Library σ R T) (flags : Flags) (s : Setup R) (num_dvs : Nat) : Run σ R T :=
  let func := [TACSFunction.Compliance]
  let funcVals := Mem.alloc T NUM_FUNCS
  let dfdx := Mem.zeroed B.zero (NUM_FUNCS * num_dvs)
  let dfdxTmp := Mem.zeroed B.zero (NUM_FUNCS * num_dvs)
  let x := designVector B num_dvs
  let r1 := adjointResult B L num_dvs
  let r2 := approxResult B L num_dvs
  let r3 := forwardResult B L num_dvs
  let r4 := reverseResult B L num_dvs
  let xp := perturbX B x
  let r5 := perturbedResult B L num_dvs
  let fd := B.estimate B.dh r3.2 r5.2
  { flags := flags
    elements := s.elements
    vars_per_node := s.vars_per_node
    tests := elementTests flags L.numVariables
    num_dvs := num_dvs
    integratorKind := IntegratorKind.BDF
    calls :=
      [⟨L.newTacsBDFIntegrator 0.0 0.001 1000 2, Call.setJacAssemblyFreq 1, integrator0 L⟩,
       ⟨integrator0 L, Call.getAdjointGradient func NUM_FUNCS x num_dvs funcVals dfdx, r1.1⟩,
       ⟨r1.1, Call.getApproxGradient func NUM_FUNCS x num_dvs r1.2.1 dfdxTmp 1e-30, r2.1⟩,
       ⟨r2.1, Call.forward x num_dvs TACSFunction.Compliance, r3.1⟩,
       ⟨r3.1, Call.reverse r1.2.2 num_dvs TACSFunction.Compliance, r4.1⟩,
       ⟨r4.1, Call.forward xp num_dvs TACSFunction.Compliance, r5.1⟩]
    output := s.output ++
      [Line.compliance ((Mem.read r1.2.1 0).map B.RealPart),
       Line.heading,
       reportLine ((Mem.read r1.2.2 0).map B.RealPart) ((Mem.read r2.2.2 0).map B.RealPart),
       Line.heading,
       reportLine ((Mem.read r4.2 0).map B.RealPart) (some fd)]
    x := xp
    dfdx := r4.2
    dfdxTmp := r2.2.2
    funcVals := r2.2.1
    fval := r3.2
    fd := fd }

/-- Lines 135-209, from the state the set-up loop left: with `num_dvs = 0` the
store `x[0] = 0.03` of line 154 goes into an array of no cells. -/
def gradientCheck {σ R T : Type} [Sub R] [OfScientific R] (B : Build R T)
    (L : Library σ R T) (flags : Flags) (s : Setup R) (num_components : Nat) :
    Outcome σ R T :=
  let num_dvs := num_components
  if 0 < num_dvs then
    Outcome.finished (gradientRun B L flags s num_dvs)
  else
    Outcome.crashed Fault.outOfBoundsWrite s.output

/-- The driver: command-line scan, set-up loop over the mesh components, then
the gradient check with `num_dvs = num_components`. `argv` is the argument
vector and `mesh` the element descriptor of each component of the mesh file. -/
def main {σ R T : Type} [Sub R] [OfScientific R] (B : Build R T)
    (L : Library σ R T) (argv : List String) (mesh : List String) : Outcome σ R T :=
  let flags := scanArgs argv
  let s : Setup R := setup L.numDisplacements mesh
  match s.fault with
  | some fault => Outcome.crashed fault s.output
  | none => gradientCheck B L flags s mesh.length

/-! ## Reference definitions of the derivative estimates -/

/-- The vector `x + d * e_i`: entry `i` of `x` increased by `d`, every other
entry as in `x`. -/
def addToEntry {T : Type} [Add T] (x : Mem T) (i : Nat) (d : T) : Mem T :=
  x.set i ((Mem.read x i).map (fun v => v + d))

/-- Forward finite difference of `f` in direction 0: `(f(x + h e0) - f(x)) / h`. -/
def forwardDifference {R : Type} [Add R] [Sub R] [Div R] (f : Mem R → R) (x : Mem R)
    (h : R) : R :=
  (f (addToEntry x 0 h) - f x) / h

/-- Complex-step estimate of `f` in direction 0: `Im(f(x + i h e0)) / h`. -/
def complexStep {R : Type} [Add R] [Div R] [OfScientific R]
    (f : Mem (Cplx R) → Cplx R) (x : Mem (Cplx R)) (h : R) : R :=
  (f (addToEntry x 0 (⟨0.0, h⟩ : Cplx R))).im / h

/-! ## A library instance for evaluation

An integrator over the rationals whose state is the design vector of its last
forward integration, whose objective is the square of `x[0]`, and whose
gradient routines add the derivative `2 x[0]` to entry 0 of the array they are
given. -/

/-- The objective of the sample integrator, real build: `x[0]^2`. -/
def sampleObjective (x : Mem ℚ) : ℚ :=
  match Mem.read x 0 with
  | some v => v * v
  | none => 0

/-- The adjoint update of the sample integrator: `dfdx[0] += 2 x[0]`. -/
def sampleAccumulate (x : Mem ℚ) (dfdx : Mem ℚ) : Mem ℚ :=
  match Mem.read x 0, Mem.read dfdx 0 with
  | some v, some g => dfdx.set 0 (some (g + 2 * v))
  | _, _ => dfdx

/-- The sample integrator of the real build. -/
def sampleLibrary : Library (Mem ℚ) ℚ ℚ where
  numDisplacements := 8
  numVariables := 72
  newTacsBDFIntegrator := fun _ _ _ _ => []
  setJacAssemblyFreq := fun s _ => s
  getAdjointGradient := fun _ _ _ x _ funcVals dfdx =>
    (x, funcVals.set 0 (some (sampleObjective x)), sampleAccumulate x dfdx)
  getApproxGradient := fun _ _ _ x _ funcVals dfdx _ =>
    (x, funcVals.set 0 (some (sampleObjective x)), sampleAccumulate x dfdx)
  forward := fun _ x _ _ => (x, sampleObjective x)
  reverse := fun s dfdx _ _ => (s, sampleAccumulate s dfdx)

/-- The objective of the sample integrator, complex build: `x[0]^2`. -/
def sampleObjectiveC (x : Mem (Cplx ℚ)) : Cplx ℚ :=
  match Mem.read x 0 with
  | some z => ⟨z.re * z.re - z.im * z.im, 2 * z.re * z.im⟩
  | none => ⟨0, 0⟩

/-- The adjoint update of the sample integrator, complex build. -/
def sampleAccumulateC (x : Mem (Cplx ℚ)) (dfdx : Mem (Cplx ℚ)) : Mem (Cplx ℚ) :=
  match Mem.read x 0, Mem.read dfdx 0 with
  | some z, some g => dfdx.set 0 (some ⟨g.re + 2 * z.re, g.im + 2 * z.im⟩)
  | _, _ => dfdx

/-- The sample integrator of the complex build. -/
def sampleLibraryC : Library (Mem (Cplx ℚ)) ℚ (Cplx ℚ) where
  numDisplacements := 8
  numVariables := 72
  newTacsBDFIntegrator := fun _ _ _ _ => []
  setJacAssemblyFreq := fun s _ => s
  getAdjointGradient := fun _ _ _ x _ funcVals dfdx =>
    (x, funcVals.set 0 (some (sampleObjectiveC x)), sampleAccumulateC x dfdx)
  getApproxGradient := fun _ _ _ x _ funcVals dfdx _ =>
    (x, funcVals.set 0 (some (sampleObjectiveC x)), sampleAccumulateC x dfdx)
  forward := fun _ x _ _ => (x, sampleObjectiveC x)
  reverse := fun s dfdx _ _ => (s, sampleAccumulateC s dfdx)

/-! ## Lemmas on the set-up loop and the driver -/

/-- On descriptors that are all "CQUAD" the loop keeps the output and ends
without a fault (given it started without one). -/
theorem setupLoop_cquad {R : Type} (n : Nat) (mesh : List String)
    (h : ∀ d ∈ mesh, d = "CQUAD") (i : Nat) (s : Setup R) (hs : s.fault = none) :
    (setupLoop n mesh i s).fault = none ∧ (setupLoop n mesh i s).output = s.output := by
  induction mesh generalizing i s with
  | nil => exact ⟨hs, rfl⟩
  | cons d rest ih =>
    have hd : d = "CQUAD" := h d (List.mem_cons_self d rest)
    have hrest : ∀ e ∈ rest, e = "CQUAD" := fun e he => h e (List.mem_cons_of_mem d he)
    simp only [setupLoop, hd, if_true]
    exact ih hrest (i + 1) _ rfl

/-- A mesh of one or more components, all "CQUAD": the driver reaches `return 0`,
and its run is the gradient check on the state the set-up loop left. -/
theorem main_cquad {σ R T : Type} [Sub R] [OfScientific R] (B : Build R T)
    (L : Library σ R T) (argv mesh : List String)
    (h : ∀ d ∈ mesh, d = "CQUAD") (hne : mesh ≠ []) :
    main B L argv mesh = Outcome.finished
      (gradientRun B L (scanArgs argv) (setup L.numDisplacements mesh) mesh.length) := by
  have hs := (setupLoop_cquad (R := R) L.numDisplacements mesh h 0 ⟨[], [], 8, none⟩ rfl).1
  have hpos : 0 < mesh.length := List.length_pos.mpr hne
  simp only [main, gradientCheck]
  have hs2 : (setup (R := R) L.numDisplacements mesh).fault = none := hs
  rw [hs2]
  simp [hpos]

/-- On a mesh whose descriptors are all "CQUAD" the set-up loop prints nothing. -/
theorem setup_output_cquad {R : Type} (n : Nat) (mesh : List String)
    (h : ∀ d ∈ mesh, d = "CQUAD") : (setup (R := R) n mesh).output = [] :=
  (setupLoop_cquad n mesh h 0 ⟨[], [], 8, none⟩ rfl).2

/-- Reading an entry other than 0 of the perturbed design vector gives what the
design vector had there. -/
theorem read_perturbX_of_ne {R T : Type} (B : Build R T) (x : Mem T) (i : Nat)
    (hi : i ≠ 0) : Mem.read (perturbX B x) i = Mem.read x i := by
  cases i with
  | zero => exact absurd rfl hi
  | succ j => cases x <;> simp [perturbX, Mem.read]

/-- With one cell or more, entry 0 of the design vector holds 0.03. -/
theorem read_designVector_zero {R T : Type} [OfScientific R] (B : Build R T) (n : Nat)
    (hn : 0 < n) : Mem.read (designVector B n) 0 = some (B.ofReal 0.03) := by
  cases n with
  | zero => exact absurd hn (Nat.lt_irrefl 0)
  | succ m => simp [designVector, Mem.alloc, Mem.read, List.replicate_succ]

/-- With one cell or more, entry 0 of the perturbed design vector holds the
perturbed 0.03. -/
theorem read_perturbX_designVector {R T : Type} [OfScientific R] (B : Build R T) (n : Nat)
    (hn : 0 < n) :
    Mem.read (perturbX B (designVector B n)) 0 = some (B.perturb B.dh (B.ofReal 0.03)) := by
  cases n with
  | zero => exact absurd hn (Nat.lt_irrefl 0)
  | succ m => simp [perturbX, designVector, Mem.alloc, Mem.read, List.replicate_succ]

/-- The perturbation keeps the number of cells. -/
theorem length_perturbX {R T : Type} [OfScientific R] (B : Build R T) (n : Nat) :
    (perturbX B (designVector B n)).length = n := by
  simp [perturbX, designVector, Mem.alloc]

/-- A mesh with a descriptor `d` other than "CQUAD" after components that are all
"CQUAD": the loop prints the warning for `d` and stops on the null call; the
components after `d` are not reached. -/
theorem setupLoop_unsupported {R : Type} (n : Nat) (pre post : List String) (d : String)
    (hpre : ∀ e ∈ pre, e = "CQUAD") (hd : d ≠ "CQUAD") (i : Nat) (s : Setup R) :
    (setupLoop n (pre ++ d :: post) i s).fault = some Fault.nullDereference ∧
    (setupLoop n (pre ++ d :: post) i s).output = s.output ++ [Line.warning d] ∧
    (setupLoop n (pre ++ d :: post) i s).elements.length = s.elements.length + pre.length := by
  induction pre generalizing i s with
  | nil => simp [setupLoop, hd]
  | cons e rest ih =>
    have he : e = "CQUAD" := hpre e (List.mem_cons_self e rest)
    have hrest : ∀ c ∈ rest, c = "CQUAD" := fun c hc => hpre c (List.mem_cons_of_mem e hc)
    have hstep : setupLoop n ((e :: rest) ++ d :: post) i s =
        setupLoop n (rest ++ d :: post) (i + 1)
          ⟨s.output, s.elements ++ [(i, TACSElement.MITC9 i)], n, none⟩ := by
      simp [setupLoop, he]
    have key := ih hrest (i + 1)
      ⟨s.output, s.elements ++ [(i, TACSElement.MITC9 i)], n, none⟩
    rw [hstep]
    refine ⟨key.1, key.2.1, ?_⟩
    rw [key.2.2]
    show (s.elements ++ [(i, TACSElement.MITC9 i)]).length + rest.length =
      s.elements.length + (rest.length + 1)
    rw [List.length_append, List.length_singleton]
    omega

/-! ## The perturbation estimate -/

/-- Claim C1. With `forward` returning `f` of the design vector it is given, the
estimate `fd` of a run on a mesh of "CQUAD" components is, in the real build,
`(f(x + h e0) - f(x)) / h` with `h = 1e-6` and `f(x)` the value `fval` of the
unperturbed forward run, and in the complex build `Im(f(x + i h e0)) / h` with
`h = 1e-30`; the vector of the perturbed run agrees with `x` at every entry but
entry 0. -/
theorem fd_eq_reference {σ τ R : Type} [Add R] [Sub R] [Div R] [OfScientific R]
    (Lr : Library σ R R) (Lc : Library τ R (Cplx R))
    (fr : Mem R → R) (fc : Mem (Cplx R) → Cplx R)
    (hr : ∀ s x n g, (Lr.forward s x n g).2 = fr x)
    (hc : ∀ s x n g, (Lc.forward s x n g).2 = fc x)
    (argv mesh : List String) (h : ∀ d ∈ mesh, d = "CQUAD") (hne : mesh ≠ []) :
    (∃ run, main (realBuild R) Lr argv mesh = Outcome.finished run ∧
        run.fval = fr (designVector (realBuild R) mesh.length) ∧
        run.fd = forwardDifference fr (designVector (realBuild R) mesh.length) 1e-6 ∧
        run.x = addToEntry (designVector (realBuild R) mesh.length) 0 1e-6 ∧
        ∀ i, i ≠ 0 →
          Mem.read run.x i = Mem.read (designVector (realBuild R) mesh.length) i) ∧
    (∃ run, main (complexBuild R) Lc argv mesh = Outcome.finished run ∧
        run.fd = complexStep fc (designVector (complexBuild R) mesh.length) 1e-30 ∧
        run.x = addToEntry (designVector (complexBuild R) mesh.length) 0
          (⟨0.0, 1e-30⟩ : Cplx R) ∧
        ∀ i, i ≠ 0 →
          Mem.read run.x i = Mem.read (designVector (complexBuild R) mesh.length) i) := by
  refine ⟨⟨_, main_cquad (realBuild R) Lr argv mesh h hne, ?_, ?_, ?_, ?_⟩,
    ⟨_, main_cquad (complexBuild R) Lc argv mesh h hne, ?_, ?_, ?_⟩⟩
  · simp only [gradientRun, forwardResult, hr]
  · simp only [gradientRun, forwardResult, perturbedResult, hr, forwardDifference]
    rfl
  · rfl
  · intro i hi
    exact read_perturbX_of_ne (realBuild R) _ i hi
  · simp only [gradientRun, perturbedResult, hc, complexStep]
    rfl
  · rfl
  · intro i hi
    exact read_perturbX_of_ne (complexBuild R) _ i hi

/-- Claim C1 at the sample integrators, on a mesh of one "CQUAD" component. -/
theorem fd_eq_reference_witness :
    (∃ run, main (realBuild ℚ) sampleLibrary ["./plate"] ["CQUAD"] = Outcome.finished run ∧
        run.fval = sampleObjective (designVector (realBuild ℚ) 1) ∧
        run.fd = forwardDifference sampleObjective (designVector (realBuild ℚ) 1) 1e-6 ∧
        run.x = addToEntry (designVector (realBuild ℚ) 1) 0 1e-6 ∧
        ∀ i, i ≠ 0 → Mem.read run.x i = Mem.read (designVector (realBuild ℚ) 1) i) ∧
    (∃ run, main (complexBuild ℚ) sampleLibraryC ["./plate"] ["CQUAD"] =
          Outcome.finished run ∧
        run.fd = complexStep sampleObjectiveC (designVector (complexBuild ℚ) 1) 1e-30 ∧
        run.x = addToEntry (designVector (complexBuild ℚ) 1) 0 (⟨0.0, 1e-30⟩ : Cplx ℚ) ∧
        ∀ i, i ≠ 0 → Mem.read run.x i = Mem.read (designVector (complexBuild ℚ) 1) i) :=
  fd_eq_reference sampleLibrary sampleLibraryC sampleObjective sampleObjectiveC
    (fun _ _ _ _ => rfl) (fun _ _ _ _ => rfl) ["./plate"] ["CQUAD"]
    (by simp) (by simp)

/-! ## The report -/

/-- Claim C3. On a mesh of "CQUAD" components the run prints two gradient
lines. On each the third value is the first minus the second, signed and
undivided (and indeterminate when one of them is); the first two values are the
real parts of `dfdx[0]` after line 169 and of `dfdxTmp[0]` on the first line, and
the real part of `dfdx[0]` after `reverse` and `fd` on the second. -/
theorem report_error_is_raw_difference {σ R T : Type} [Sub R] [OfScientific R]
    (B : Build R T) (L : Library σ R T) (argv mesh : List String)
    (h : ∀ d ∈ mesh, d = "CQUAD") (hne : mesh ≠ []) :
    ∃ run, main B L argv mesh = Outcome.finished run ∧
      (∀ i a b e, Line.gradient i a b e ∈ run.output →
        (∀ u v, a = some u → b = some v → e = some (u - v)) ∧
        (a = none ∨ b = none → e = none) ∧
        ((a = (Mem.read (adjointResult B L mesh.length).2.2 0).map B.RealPart ∧
            b = (Mem.read run.dfdxTmp 0).map B.RealPart) ∨
          (a = (Mem.read run.dfdx 0).map B.RealPart ∧ b = some run.fd))) ∧
      (∃ e, Line.gradient 0 ((Mem.read (adjointResult B L mesh.length).2.2 0).map B.RealPart)
        ((Mem.read run.dfdxTmp 0).map B.RealPart) e ∈ run.output) ∧
      (∃ e, Line.gradient 0 ((Mem.read run.dfdx 0).map B.RealPart) (some run.fd) e
        ∈ run.output) := by
  refine ⟨_, main_cquad B L argv mesh h hne, ?_, ?_, ?_⟩
  · intro i a b e hmem
    simp only [gradientRun, setup_output_cquad _ _ h, reportLine, List.nil_append] at hmem
    simp only [List.mem_cons, List.mem_singleton, Line.gradient.injEq, reduceCtorEq,
      false_or, or_false, List.mem_nil_iff] at hmem
    have key : e = optSub a b := by
      rcases hmem with ⟨_, ha, hb, he⟩ | ⟨_, ha, hb, he⟩ <;> rw [he, ha, hb]
    refine ⟨?_, ?_, ?_⟩
    · intro u v hu hv
      rw [key, hu, hv]
      rfl
    · intro hnone
      rw [key]
      rcases hnone with hn | hn
      · rw [hn]; rfl
      · rw [hn]; cases a <;> rfl
    · rcases hmem with ⟨_, ha, hb, _⟩ | ⟨_, ha, hb, _⟩
      · exact Or.inl ⟨ha, hb⟩
      · exact Or.inr ⟨ha, hb⟩
  · refine ⟨optSub ((Mem.read (adjointResult B L mesh.length).2.2 0).map B.RealPart)
      ((Mem.read (approxResult B L mesh.length).2.2 0).map B.RealPart), ?_⟩
    simp only [gradientRun, setup_output_cquad _ _ h, reportLine, List.nil_append]
    simp
  · refine ⟨optSub ((Mem.read (reverseResult B L mesh.length).2 0).map B.RealPart)
      (some (B.estimate B.dh (forwardResult B L mesh.length).2
        (perturbedResult B L mesh.length).2)), ?_⟩
    simp only [gradientRun, setup_output_cquad _ _ h, reportLine, List.nil_append]
    simp

/-- Claim C3 at the sample integrator of the complex build, on one "CQUAD" component. -/
theorem report_error_is_raw_difference_witness :
    ∃ run, main (complexBuild ℚ) sampleLibraryC ["./plate"] ["CQUAD"] =
        Outcome.finished run ∧
      (∀ i a b e, Line.gradient i a b e ∈ run.output →
        (∀ u v, a = some u → b = some v → e = some (u - v)) ∧
        (a = none ∨ b = none → e = none) ∧
        ((a = (Mem.read (adjointResult (complexBuild ℚ) sampleLibraryC
                ["CQUAD"].length).2.2 0).map (complexBuild ℚ).RealPart ∧
            b = (Mem.read run.dfdxTmp 0).map (complexBuild ℚ).RealPart) ∨
          (a = (Mem.read run.dfdx 0).map (complexBuild ℚ).RealPart ∧ b = some run.fd))) ∧
      (∃ e, Line.gradient 0
        ((Mem.read (adjointResult (complexBuild ℚ) sampleLibraryC
          ["CQUAD"].length).2.2 0).map (complexBuild ℚ).RealPart)
        ((Mem.read run.dfdxTmp 0).map (complexBuild ℚ).RealPart) e ∈ run.output) ∧
      (∃ e, Line.gradient 0 ((Mem.read run.dfdx 0).map (complexBuild ℚ).RealPart)
        (some run.fd) e ∈ run.output) :=
  report_error_is_raw_difference (complexBuild ℚ) sampleLibraryC ["./plate"] ["CQUAD"]
    (by simp) (by simp)

/-! ## Order of the integrator calls -/

/-- Claim C6. On a mesh of "CQUAD" components the run calls `reverse`, and every
call of `reverse` comes directly after a call of `forward` that returned the
state `reverse` is called on, was given the design vector as it is before any
perturbation, and was given the same function. -/
theorem reverse_follows_forward {σ R T : Type} [Sub R] [OfScientific R]
    (B : Build R T) (L : Library σ R T) (argv mesh : List String)
    (h : ∀ d ∈ mesh, d = "CQUAD") (hne : mesh ≠ []) :
    ∃ run, main B L argv mesh = Outcome.finished run ∧
      (∃ (k : Nat), ∃ s d n g t, run.calls[k]? = some (Event.mk s (Call.reverse d n g) t)) ∧
      (∃ s f m v w d t, run.calls[1]? = some (Event.mk s
        (Call.getAdjointGradient f m (designVector B mesh.length) v w d) t)) ∧
      ∀ (k : Nat) s d n g t, run.calls[k]? = some (Event.mk s (Call.reverse d n g) t) →
        ∃ (j : Nat), ∃ s0, k = j + 1 ∧ run.calls[j]? =
          some (Event.mk s0 (Call.forward (designVector B mesh.length) n g) s) := by
  refine ⟨_, main_cquad B L argv mesh h hne, ?_, ?_, ?_⟩
  · exact ⟨4, _, _, _, _, _, rfl⟩
  · exact ⟨_, _, _, _, _, _, _, rfl⟩
  · intro k s d n g t hk
    rcases k with _ | _ | _ | _ | _ | _ | k
    · simp [gradientRun] at hk
    · simp [gradientRun] at hk
    · simp [gradientRun] at hk
    · simp [gradientRun] at hk
    · refine ⟨3, (approxResult B L mesh.length).1, rfl, ?_⟩
      simp only [gradientRun, List.getElem?_cons_succ, List.getElem?_cons_zero,
        Option.some.injEq, Event.mk.injEq, Call.reverse.injEq] at hk
      obtain ⟨hs, ⟨_, hn, hg⟩, _⟩ := hk
      simp only [gradientRun, List.getElem?_cons_succ, List.getElem?_cons_zero]
      rw [← hs, ← hn, ← hg]
    · simp [gradientRun] at hk
    · simp [gradientRun] at hk

/-- Claim C6 at the sample integrator of the real build, on two "CQUAD" components. -/
theorem reverse_follows_forward_witness :
    ∃ run, main (realBuild ℚ) sampleLibrary ["./plate", "BDF"] ["CQUAD", "CQUAD"] =
        Outcome.finished run ∧
      (∃ (k : Nat), ∃ s d n g t, run.calls[k]? = some (Event.mk s (Call.reverse d n g) t)) ∧
      (∃ s f m v w d t, run.calls[1]? = some (Event.mk s
        (Call.getAdjointGradient f m
          (designVector (realBuild ℚ) ["CQUAD", "CQUAD"].length) v w d) t)) ∧
      ∀ (k : Nat) s d n g t, run.calls[k]? = some (Event.mk s (Call.reverse d n g) t) →
        ∃ (j : Nat), ∃ s0, k = j + 1 ∧ run.calls[j]? = some (Event.mk s0
          (Call.forward (designVector (realBuild ℚ) ["CQUAD", "CQUAD"].length) n g) s) :=
  reverse_follows_forward (realBuild ℚ) sampleLibrary ["./plate", "BDF"] ["CQUAD", "CQUAD"]
    (by simp) (by simp)

/-! ## Which design variables are reported -/

/-- Claim C2 fails as stated: with two "CQUAD" components, `num_dvs = 2`, and
the report has no line for design variable 1. -/
theorem report_line_per_variable_counterexample :
    ∃ run, main (realBuild ℚ) sampleLibrary ["./plate"] ["CQUAD", "CQUAD"] =
        Outcome.finished run ∧
      run.num_dvs = 2 ∧ ∀ a b e, Line.gradient 1 a b e ∉ run.output := by
  refine ⟨_, main_cquad (realBuild ℚ) sampleLibrary ["./plate"] ["CQUAD", "CQUAD"]
    (by simp) (by simp), rfl, ?_⟩
  intro a b e hmem
  simp [gradientRun, setup, setupLoop, reportLine] at hmem

/-- Claim C2, amended. For every `num_dvs >= 1` the report has the line of design
variable 0, giving the real parts of `dfdx[0]` and `dfdxTmp[0]` and their
difference, and every gradient line of the report is a line of design
variable 0. -/
theorem report_line_for_variable_zero {σ R T : Type} [Sub R] [OfScientific R]
    (B : Build R T) (L : Library σ R T) (argv mesh : List String)
    (h : ∀ d ∈ mesh, d = "CQUAD") (hne : mesh ≠ []) :
    ∃ run, main B L argv mesh = Outcome.finished run ∧
      run.num_dvs = mesh.length ∧
      Line.gradient 0 ((Mem.read (adjointResult B L mesh.length).2.2 0).map B.RealPart)
        ((Mem.read run.dfdxTmp 0).map B.RealPart)
        (optSub ((Mem.read (adjointResult B L mesh.length).2.2 0).map B.RealPart)
          ((Mem.read run.dfdxTmp 0).map B.RealPart)) ∈ run.output ∧
      ∀ i a b e, Line.gradient i a b e ∈ run.output → i = 0 := by
  refine ⟨_, main_cquad B L argv mesh h hne, rfl, ?_, ?_⟩
  · simp only [gradientRun, setup_output_cquad _ _ h, reportLine, List.nil_append]
    simp
  · intro i a b e hmem
    simp only [gradientRun, setup_output_cquad _ _ h, reportLine, List.nil_append] at hmem
    simp only [List.mem_cons, List.mem_singleton, Line.gradient.injEq, reduceCtorEq,
      false_or, or_false, List.mem_nil_iff] at hmem
    rcases hmem with ⟨hi, _⟩ | ⟨hi, _⟩ <;> exact hi

/-- Claim C2, amended, at the sample integrator on three "CQUAD" components. -/
theorem report_line_for_variable_zero_witness :
    ∃ run, main (realBuild ℚ) sampleLibrary ["./plate"] ["CQUAD", "CQUAD", "CQUAD"] =
        Outcome.finished run ∧
      run.num_dvs = ["CQUAD", "CQUAD", "CQUAD"].length ∧
      Line.gradient 0
        ((Mem.read (adjointResult (realBuild ℚ) sampleLibrary
          ["CQUAD", "CQUAD", "CQUAD"].length).2.2 0).map (realBuild ℚ).RealPart)
        ((Mem.read run.dfdxTmp 0).map (realBuild ℚ).RealPart)
        (optSub ((Mem.read (adjointResult (realBuild ℚ) sampleLibrary
            ["CQUAD", "CQUAD", "CQUAD"].length).2.2 0).map (realBuild ℚ).RealPart)
          ((Mem.read run.dfdxTmp 0).map (realBuild ℚ).RealPart)) ∈ run.output ∧
      ∀ i a b e, Line.gradient i a b e ∈ run.output → i = 0 :=
  report_line_for_variable_zero (realBuild ℚ) sampleLibrary ["./plate"]
    ["CQUAD", "CQUAD", "CQUAD"] (by simp) (by simp)

/-! ## The design vector after the perturbation -/

/-- Claim C5 fails as stated: in both builds the run ends with `x[0]` different
from the 0.03 it held at the first integrator call. -/
theorem perturbation_undone_counterexample :
    (∃ run, main (realBuild ℚ) sampleLibrary ["./plate"] ["CQUAD"] = Outcome.finished run ∧
        Mem.read (designVector (realBuild ℚ) 1) 0 = some 0.03 ∧
        Mem.read run.x 0 ≠ some 0.03 ∧ run.x ≠ designVector (realBuild ℚ) 1) ∧
    (∃ run, main (complexBuild ℚ) sampleLibraryC ["./plate"] ["CQUAD"] =
          Outcome.finished run ∧
        Mem.read (designVector (complexBuild ℚ) 1) 0 = some ⟨0.03, 0.0⟩ ∧
        Mem.read run.x 0 ≠ some ⟨0.03, 0.0⟩ ∧ run.x ≠ designVector (complexBuild ℚ) 1) := by
  refine ⟨⟨_, main_cquad (realBuild ℚ) sampleLibrary ["./plate"] ["CQUAD"]
      (by simp) (by simp), ?_, ?_, ?_⟩,
    ⟨_, main_cquad (complexBuild ℚ) sampleLibraryC ["./plate"] ["CQUAD"]
      (by simp) (by simp), ?_, ?_, ?_⟩⟩
  · rfl
  · simp [gradientRun, perturbX, designVector, Mem.alloc, Mem.read, realBuild]
    norm_num
  · simp [gradientRun, perturbX, designVector, Mem.alloc, Mem.read, realBuild]
    norm_num
  · rfl
  · simp [gradientRun, perturbX, designVector, Mem.alloc, Mem.read, complexBuild]
    norm_num [HAdd.hAdd, Add.add]
  · simp [gradientRun, perturbX, designVector, Mem.alloc, Mem.read, complexBuild]
    norm_num [HAdd.hAdd, Add.add]

/-- Claim C5, amended. The perturbation of `x[0]` is applied once and stays: the
array `x` of a finished run holds `0.03 + 1e-6` in entry 0 in the real build and
`0.03 + 1e-30 i` in the complex build, its other entries are as at the first
integrator call, and the forward run on this perturbed array is the last call
made on the integrator. -/
theorem perturbation_kept {σ τ R : Type} [Add R] [Sub R] [Div R] [OfScientific R]
    (Lr : Library σ R R) (Lc : Library τ R (Cplx R)) (argv mesh : List String)
    (h : ∀ d ∈ mesh, d = "CQUAD") (hne : mesh ≠ []) :
    (∃ run, main (realBuild R) Lr argv mesh = Outcome.finished run ∧
        Mem.read run.x 0 = some (0.03 + 1e-6) ∧
        run.x.length = mesh.length ∧
        (∀ i, i ≠ 0 →
          Mem.read run.x i = Mem.read (designVector (realBuild R) mesh.length) i) ∧
        ∃ s t, run.calls.getLast? =
          some (Event.mk s (Call.forward run.x mesh.length TACSFunction.Compliance) t)) ∧
    (∃ run, main (complexBuild R) Lc argv mesh = Outcome.finished run ∧
        Mem.read run.x 0 = some ((⟨0.03, 0.0⟩ : Cplx R) + ⟨0.0, 1e-30⟩) ∧
        run.x.length = mesh.length ∧
        (∀ i, i ≠ 0 →
          Mem.read run.x i = Mem.read (designVector (complexBuild R) mesh.length) i) ∧
        ∃ s t, run.calls.getLast? =
          some (Event.mk s (Call.forward run.x mesh.length TACSFunction.Compliance) t)) := by
  have hpos : 0 < mesh.length := List.length_pos.mpr hne
  refine ⟨⟨_, main_cquad (realBuild R) Lr argv mesh h hne, ?_, ?_, ?_, ?_⟩,
    ⟨_, main_cquad (complexBuild R) Lc argv mesh h hne, ?_, ?_, ?_, ?_⟩⟩
  · exact read_perturbX_designVector (realBuild R) mesh.length hpos
  · exact length_perturbX (realBuild R) mesh.length
  · intro i hi
    exact read_perturbX_of_ne (realBuild R) _ i hi
  · exact ⟨_, _, rfl⟩
  · exact read_perturbX_designVector (complexBuild R) mesh.length hpos
  · exact length_perturbX (complexBuild R) mesh.length
  · intro i hi
    exact read_perturbX_of_ne (complexBuild R) _ i hi
  · exact ⟨_, _, rfl⟩

/-- Claim C5, amended, at the sample integrators on two "CQUAD" components. -/
theorem perturbation_kept_witness :
    (∃ run, main (realBuild ℚ) sampleLibrary ["./plate"] ["CQUAD", "CQUAD"] =
          Outcome.finished run ∧
        Mem.read run.x 0 = some (0.03 + 1e-6) ∧
        run.x.length = ["CQUAD", "CQUAD"].length ∧
        (∀ i, i ≠ 0 → Mem.read run.x i =
          Mem.read (designVector (realBuild ℚ) ["CQUAD", "CQUAD"].length) i) ∧
        ∃ s t, run.calls.getLast? = some (Event.mk s
          (Call.forward run.x ["CQUAD", "CQUAD"].length TACSFunction.Compliance) t)) ∧
    (∃ run, main (complexBuild ℚ) sampleLibraryC ["./plate"] ["CQUAD", "CQUAD"] =
          Outcome.finished run ∧
        Mem.read run.x 0 = some ((⟨0.03, 0.0⟩ : Cplx ℚ) + ⟨0.0, 1e-30⟩) ∧
        run.x.length = ["CQUAD", "CQUAD"].length ∧
        (∀ i, i ≠ 0 → Mem.read run.x i =
          Mem.read (designVector (complexBuild ℚ) ["CQUAD", "CQUAD"].length) i) ∧
        ∃ s t, run.calls.getLast? = some (Event.mk s
          (Call.forward run.x ["CQUAD", "CQUAD"].length TACSFunction.Compliance) t)) :=
  perturbation_kept sampleLibrary sampleLibraryC ["./plate"] ["CQUAD", "CQUAD"]
    (by simp) (by simp)

/-! ## The array `dfdx` at the gradient calls -/

/-- Claim C8 fails as stated: at the sample integrator, `dfdx[0]` is not zero
when `reverse` is called. -/
theorem dfdx_zero_at_calls_counterexample :
    ∃ run, main (realBuild ℚ) sampleLibrary ["./plate"] ["CQUAD"] = Outcome.finished run ∧
      ∃ s d n g t, Event.mk s (Call.reverse d n g) t ∈ run.calls ∧
        Mem.read d 0 ≠ some (realBuild ℚ).zero := by
  refine ⟨_, main_cquad (realBuild ℚ) sampleLibrary ["./plate"] ["CQUAD"]
    (by simp) (by simp), ?_⟩
  refine ⟨(forwardResult (realBuild ℚ) sampleLibrary 1).1,
    (adjointResult (realBuild ℚ) sampleLibrary 1).2.2, 1,
    TACSFunction.Compliance, (reverseResult (realBuild ℚ) sampleLibrary 1).1, ?_, ?_⟩
  · simp only [gradientRun, List.length_cons, List.length_nil]
    simp
  · simp [adjointResult, sampleLibrary, sampleAccumulate, designVector, Mem.alloc,
      Mem.zeroed, Mem.read, NUM_FUNCS, realBuild]
    norm_num

/-- Claim C8, amended. The run makes one call of `getAdjointGradient` and one of
`reverse`. At the call of `getAdjointGradient` the array `dfdx` has
`NUM_FUNCS * num_dvs` cells, each holding zero; at the call of `reverse` it is
the array `getAdjointGradient` returned, passed on as it is. -/
theorem dfdx_at_gradient_calls {σ R T : Type} [Sub R] [OfScientific R]
    (B : Build R T) (L : Library σ R T) (argv mesh : List String)
    (h : ∀ d ∈ mesh, d = "CQUAD") (hne : mesh ≠ []) :
    ∃ run, main B L argv mesh = Outcome.finished run ∧
      (∃ (k : Nat), ∃ s f m x n v d t, run.calls[k]? =
        some (Event.mk s (Call.getAdjointGradient f m x n v d) t)) ∧
      (∃ (k : Nat), ∃ s d n g t, run.calls[k]? = some (Event.mk s (Call.reverse d n g) t)) ∧
      (∀ (k : Nat) s f m x n v d t,
        run.calls[k]? = some (Event.mk s (Call.getAdjointGradient f m x n v d) t) →
        d.length = NUM_FUNCS * mesh.length ∧ ∀ c ∈ d, c = some B.zero) ∧
      (∀ (k : Nat) s d n g t, run.calls[k]? = some (Event.mk s (Call.reverse d n g) t) →
        d = (adjointResult B L mesh.length).2.2) := by
  refine ⟨_, main_cquad B L argv mesh h hne, ?_, ?_, ?_, ?_⟩
  · exact ⟨1, _, _, _, _, _, _, _, _, rfl⟩
  · exact ⟨4, _, _, _, _, _, rfl⟩
  · intro k s f m x n v d t hk
    rcases k with _ | _ | _ | _ | _ | _ | k
    · simp [gradientRun] at hk
    · simp only [gradientRun, List.getElem?_cons_succ, List.getElem?_cons_zero,
        Option.some.injEq, Event.mk.injEq, Call.getAdjointGradient.injEq] at hk
      obtain ⟨_, ⟨_, _, _, _, _, hd⟩, _⟩ := hk
      rw [← hd]
      refine ⟨by simp [Mem.zeroed], ?_⟩
      intro c hc
      exact List.eq_of_mem_replicate hc
    · simp [gradientRun] at hk
    · simp [gradientRun] at hk
    · simp [gradientRun] at hk
    · simp [gradientRun] at hk
    · simp [gradientRun] at hk
  · intro k s d n g t hk
    rcases k with _ | _ | _ | _ | _ | _ | k
    · simp [gradientRun] at hk
    · simp [gradientRun] at hk
    · simp [gradientRun] at hk
    · simp [gradientRun] at hk
    · simp only [gradientRun, List.getElem?_cons_succ, List.getElem?_cons_zero,
        Option.some.injEq, Event.mk.injEq, Call.reverse.injEq] at hk
      obtain ⟨_, ⟨hd, _, _⟩, _⟩ := hk
      exact hd.symm
    · simp [gradientRun] at hk
    · simp [gradientRun] at hk

/-- Claim C8, amended, at the sample integrator of the complex build on two
"CQUAD" components. -/
theorem dfdx_at_gradient_calls_witness :
    ∃ run, main (complexBuild ℚ) sampleLibraryC ["./plate"] ["CQUAD", "CQUAD"] =
        Outcome.finished run ∧
      (∃ (k : Nat), ∃ s f m x n v d t, run.calls[k]? =
        some (Event.mk s (Call.getAdjointGradient f m x n v d) t)) ∧
      (∃ (k : Nat), ∃ s d n g t, run.calls[k]? = some (Event.mk s (Call.reverse d n g) t)) ∧
      (∀ (k : Nat) s f m x n v d t,
        run.calls[k]? = some (Event.mk s (Call.getAdjointGradient f m x n v d) t) →
        d.length = NUM_FUNCS * ["CQUAD", "CQUAD"].length ∧
          ∀ c ∈ d, c = some (complexBuild ℚ).zero) ∧
      (∀ (k : Nat) s d n g t, run.calls[k]? = some (Event.mk s (Call.reverse d n g) t) →
        d = (adjointResult (complexBuild ℚ) sampleLibraryC
          ["CQUAD", "CQUAD"].length).2.2) :=
  dfdx_at_gradient_calls (complexBuild ℚ) sampleLibraryC ["./plate"] ["CQUAD", "CQUAD"]
    (by simp) (by simp)

/-! ## Behaviour that departs from the documented intent -/

/-- A mesh with a descriptor other than "CQUAD" (the first such being `d`): the
driver prints the warning for `d` and stops on the null call of line 86. -/
theorem main_unsupported {σ R T : Type} [Sub R] [OfScientific R] (B : Build R T)
    (L : Library σ R T) (argv pre post : List String) (d : String)
    (hpre : ∀ e ∈ pre, e = "CQUAD") (hd : d ≠ "CQUAD") :
    main B L argv (pre ++ d :: post) =
      Outcome.crashed Fault.nullDereference [Line.warning d] := by
  have key := setupLoop_unsupported (R := R) L.numDisplacements pre post d hpre hd 0
    ⟨[], [], 8, none⟩
  have hf : (setup (R := R) L.numDisplacements (pre ++ d :: post)).fault =
      some Fault.nullDereference := key.1
  have ho : (setup (R := R) L.numDisplacements (pre ++ d :: post)).output =
      [Line.warning d] := key.2.1
  simp only [main]
  rw [hf, ho]

/-- Whatever the argument list, a finished run has constructed the BDF
integrator: `use_bdf` is set by the scan and read nowhere. -/
theorem integratorKind_bdf {σ R T : Type} [Sub R] [OfScientific R] (B : Build R T)
    (L : Library σ R T) (argv mesh : List String) (run : Run σ R T)
    (hrun : main B L argv mesh = Outcome.finished run) :
    run.integratorKind = IntegratorKind.BDF := by
  simp only [main, gradientCheck] at hrun
  split at hrun
  · exact Outcome.noConfusion hrun
  · split at hrun
    · injection hrun with hrun
      rw [← hrun]
      rfl
    · exact Outcome.noConfusion hrun

/-- Every cell of the design vector but cell 0 is unassigned when the array is
first passed to the integrator. -/
theorem designVector_unassigned {R T : Type} [OfScientific R] (B : Build R T) (n i : Nat)
    (hi : 0 < i) (hin : i < n) : (designVector B n)[i]? = some none := by
  cases i with
  | zero => exact absurd hi (Nat.lt_irrefl 0)
  | succ j =>
    cases n with
    | zero => exact absurd hin (Nat.not_lt_zero _)
    | succ m =>
      have hj : j < m := Nat.lt_of_succ_lt_succ hin
      simp [designVector, Mem.alloc, List.replicate_succ, hj]

/-- Claim C4 on the mesh "CTRIA", "CQUAD": after the warning for component 0 the
driver stops on the null call; component 1 is not processed and the run does
not reach the gradient check. -/
theorem unsupported_descriptor_stops_setup :
    main (realBuild ℚ) sampleLibrary ["./plate"] ["CTRIA", "CQUAD"] =
        Outcome.crashed Fault.nullDereference [Line.warning "CTRIA"] ∧
      (setup (R := ℚ) sampleLibrary.numDisplacements ["CTRIA", "CQUAD"]).elements = [] := by
  constructor
  · exact main_unsupported (realBuild ℚ) sampleLibrary ["./plate"] [] ["CQUAD"] "CTRIA"
      (by simp) (by decide)
  · simp [setup, setupLoop]

/-- Claim C7 on the argument lists "./plate DIRK" and "./plate BDF": the scan
sets `use_bdf` to 0 and to 1, and both runs construct the BDF integrator. -/
theorem integrator_kind_ignores_arguments :
    (∃ run, main (realBuild ℚ) sampleLibrary ["./plate", "DIRK"] ["CQUAD"] =
          Outcome.finished run ∧
        run.flags.use_bdf = 0 ∧ run.integratorKind = IntegratorKind.BDF) ∧
    (∃ run, main (realBuild ℚ) sampleLibrary ["./plate", "BDF"] ["CQUAD"] =
          Outcome.finished run ∧
        run.flags.use_bdf = 1 ∧ run.integratorKind = IntegratorKind.BDF) := by
  refine ⟨⟨_, main_cquad (realBuild ℚ) sampleLibrary ["./plate", "DIRK"] ["CQUAD"]
      (by simp) (by simp), ?_, rfl⟩,
    ⟨_, main_cquad (realBuild ℚ) sampleLibrary ["./plate", "BDF"] ["CQUAD"]
      (by simp) (by simp), ?_, rfl⟩⟩
  · simp [gradientRun, scanArgs, scanArg]
  · simp [gradientRun, scanArgs, scanArg]

/-- Claim C9 on a mesh of two "CQUAD" components: the design vector passed to
`getAdjointGradient` has two cells with `num_dvs = 2`, and cell 1 was never
assigned. -/
theorem design_vector_cell_unassigned :
    ∃ run, main (realBuild ℚ) sampleLibrary ["./plate"] ["CQUAD", "CQUAD"] =
        Outcome.finished run ∧
      ∃ s f m, ∃ (x : Mem ℚ), ∃ v d t, run.calls[1]? =
          some (Event.mk s (Call.getAdjointGradient f m x 2 v d) t) ∧
        x = [some 0.03, none] ∧ x.length = 2 ∧ x[1]? = some none := by
  refine ⟨_, main_cquad (realBuild ℚ) sampleLibrary ["./plate"] ["CQUAD", "CQUAD"]
    (by simp) (by simp), ?_⟩
  exact ⟨_, _, _, _, _, _, _, rfl, rfl, rfl, rfl⟩

end Plate
